import Mathlib

/-!
Verification of the HTTP/3 connection engine and client role of this
repository against its natural-language specification.

The Go source is shallowly embedded: pure decision logic of the connection
engine (`conn.go`), the client (`client.go`), `errors.go` and `body.go` is
translated into executable Lean definitions, with stateful code turned into
explicit state passing and event (action) lists.  Machine integers are
modelled as `Nat`/`Int`; Go `strconv` parsing is modelled explicitly with
64-bit range checks.  Definitions carry the names of the source functions
where Lean allows it.
-/

/- ===================== HTTP/3 error codes (errors.go) ===================== -/

/-- `errorNoError` from errors.go. -/
def errorNoError : Nat := 0x100

/-- `errorGeneralProtocolError` from errors.go. -/
def errorGeneralProtocolError : Nat := 0x101

/-- `errorInternalError` from errors.go. -/
def errorInternalError : Nat := 0x102

/-- `errorStreamCreationError` from errors.go. -/
def errorStreamCreationError : Nat := 0x103

/-- `errorClosedCriticalStream` from errors.go. -/
def errorClosedCriticalStream : Nat := 0x104

/-- `errorFrameUnexpected` from errors.go. -/
def errorFrameUnexpected : Nat := 0x105

/-- `errorFrameError` from errors.go. -/
def errorFrameError : Nat := 0x106

/-- `errorExcessiveLoad` from errors.go. -/
def errorExcessiveLoad : Nat := 0x107

/-- `errorIDError` from errors.go. -/
def errorIDError : Nat := 0x108

/-- `errorSettingsError` from errors.go. -/
def errorSettingsError : Nat := 0x109

/-- `errorMissingSettings` from errors.go. -/
def errorMissingSettings : Nat := 0x10a

/-- `errorRequestRejected` from errors.go. -/
def errorRequestRejected : Nat := 0x10b

/-- `errorRequestCanceled` from errors.go. -/
def errorRequestCanceled : Nat := 0x10c

/-- `errorRequestIncomplete` from errors.go. -/
def errorRequestIncomplete : Nat := 0x10d

/-- `errorMessageError` from errors.go. -/
def errorMessageError : Nat := 0x10e

/-- `errorConnectError` from errors.go. -/
def errorConnectError : Nat := 0x10f

/-- `errorVersionFallback` from errors.go. -/
def errorVersionFallback : Nat := 0x110

/-- `errorWebTransportBufferedStreamRejected` from errors.go. -/
def errorWebTransportBufferedStreamRejected : Nat := 0x3994bd84

/- ===================== Stream types and frame types ===================== -/

/-- Modelled from the spec: stream type tag CONTROL(0x00).  The constant
declarations themselves are not under src/, only their users are. -/
def StreamTypeControl : Nat := 0x00

/-- Modelled from the spec: stream type tag PUSH(0x01). -/
def StreamTypePush : Nat := 0x01

/-- Modelled from the spec: stream type tag QPACK_ENCODER(0x02). -/
def StreamTypeQPACKEncoder : Nat := 0x02

/-- Modelled from the spec: stream type tag QPACK_DECODER(0x03). -/
def StreamTypeQPACKDecoder : Nat := 0x03

/-- Modelled from the spec: stream type tag WEBTRANSPORT_UNI(0x54). -/
def StreamTypeWebTransportStream : Nat := 0x54

/-- Modelled from the spec: frame type DATA(0x00). -/
def FrameTypeData : Nat := 0x00

/-- Modelled from the spec: frame type HEADERS(0x01). -/
def FrameTypeHeaders : Nat := 0x01

/-- Modelled from the spec: frame type SETTINGS(0x04). -/
def FrameTypeSettings : Nat := 0x04

/-- Modelled from the spec: frame type WEBTRANSPORT_STREAM(0x41). -/
def FrameTypeWebTransportStream : Nat := 0x41

/- ===================== Settings ===================== -/

/-- Modelled from the spec: `Settings` is a mapping identifier(u64) to
value(u64); the type declaration is not under src/.  Embedded as an
association list with Go map lookup semantics. -/
def Settings : Type := List (Nat × Nat)

instance : DecidableEq Settings := by
  unfold Settings
  exact inferInstance

/-- Lookup of an identifier in a `Settings` map (first binding wins,
mirroring a Go map, which holds at most one binding per key). -/
def Settings.lookup (s : Settings) (k : Nat) : Option Nat :=
  match s with
  | [] => none
  | (k1, v) :: rest => if k1 = k then some v else Settings.lookup rest k

/-- Modelled from the spec: identifier MAX_FIELD_SECTION_SIZE(0x06). -/
def SettingMaxFieldSectionSize : Nat := 0x06

/-- Modelled from the spec: identifier H3_DATAGRAM (draft value; the exact
numeric identifier is not fixed by the spec and does not matter to any
claim, only key identity does). -/
def SettingDatagram : Nat := 0x276

/-- Modelled from the spec: the `datagrams_enabled()` helper: whether the
settings advertise H3_DATAGRAM.  The tests under src/ advertise it as
`Settings\x7bSettingDatagram: 1\x7d`, so enabled means value 1. -/
def Settings.DatagramsEnabled (s : Settings) : Bool :=
  Settings.lookup s SettingDatagram = some 1

/- ===================== C4: max-field-section-size defaults ===================== -/

/-- `defaultMaxFieldSectionSize` from part_001 line 979: 16 MiB. -/
def defaultMaxFieldSectionSize : Nat := 16 <<< 20

/-- Go net/http `DefaultMaxHeaderBytes` (external stdlib constant): 1 MiB. -/
def httpDefaultMaxHeaderBytes : Nat := 1 <<< 20

/-- `connection.maxHeaderBytes` from part_001 lines 981-987.  A Go map read
of a missing key yields the zero value 0. -/
def maxHeaderBytes (settings : Settings) : Nat :=
  let max := (Settings.lookup settings SettingMaxFieldSectionSize).getD 0
  if max > 0 then max else defaultMaxFieldSectionSize

/-- `connection.peerMaxHeaderBytes` from part_001 lines 989-996: the comma-ok
lookup succeeds with a positive value, or the Go net/http default (1 MiB,
not 16 MiB) is used.  A nil peer-settings map (latch still pending) is
embedded as the empty list. -/
def peerMaxHeaderBytes (peerSettings : Settings) : Nat :=
  match Settings.lookup peerSettings SettingMaxFieldSectionSize with
  | some max => if max > 0 then max else httpDefaultMaxHeaderBytes
  | none => httpDefaultMaxHeaderBytes

/- ===================== C1/C5 helpers ===================== -/

/-- Modelled from the spec: WebTransport session ids MUST be client-initiated
bidirectional stream ids (low two bits == 0); the `isClientBidi` helper is
not under src/, only its callers are. -/
def isClientBidi (id : Nat) : Bool :=
  id % 4 = 0

/- ===================== Theorems: C9 and C4 ===================== -/

/-- C9: the HTTP/3 error-code constants of errors.go have exactly the
normative wire values of the spec table. -/
theorem error_codes_match_spec_table :
    errorNoError = 0x100 ∧
    errorGeneralProtocolError = 0x101 ∧
    errorInternalError = 0x102 ∧
    errorStreamCreationError = 0x103 ∧
    errorClosedCriticalStream = 0x104 ∧
    errorFrameUnexpected = 0x105 ∧
    errorFrameError = 0x106 ∧
    errorExcessiveLoad = 0x107 ∧
    errorIDError = 0x108 ∧
    errorSettingsError = 0x109 ∧
    errorMissingSettings = 0x10a ∧
    errorRequestRejected = 0x10b ∧
    errorRequestCanceled = 0x10c ∧
    errorRequestIncomplete = 0x10d ∧
    errorMessageError = 0x10e ∧
    errorConnectError = 0x10f ∧
    errorVersionFallback = 0x110 ∧
    errorWebTransportBufferedStreamRejected = 0x3994bd84 := by
  refine ⟨rfl, rfl, rfl, rfl, rfl, rfl, rfl, rfl, rfl, rfl, rfl, rfl, rfl,
    rfl, rfl, rfl, rfl, rfl⟩

/-- C4 counterexample: with the MAX_FIELD_SECTION_SIZE setting absent, the
limit derived from local settings defaults to 16 MiB, but the limit derived
from peer settings defaults to 1 MiB (http.DefaultMaxHeaderBytes), so the
claim that the 16 MiB default applies to both sides is false. -/
theorem peerMaxHeaderBytes_default_is_not_16MiB :
    maxHeaderBytes [] = 16777216 ∧
    peerMaxHeaderBytes [] = 1048576 ∧
    peerMaxHeaderBytes [] ≠ defaultMaxFieldSectionSize := by
  refine ⟨rfl, rfl, ?_⟩
  decide

/-- C4 amended: when MAX_FIELD_SECTION_SIZE is absent or zero,
`maxHeaderBytes` (local settings) defaults to 16 MiB while
`peerMaxHeaderBytes` (peer settings) defaults to Go net/http
DefaultMaxHeaderBytes, 1 MiB; a present positive value is used by both. -/
theorem max_field_section_size_defaults (s : Settings) :
    ((Settings.lookup s SettingMaxFieldSectionSize = none ∨
      Settings.lookup s SettingMaxFieldSectionSize = some 0) →
      maxHeaderBytes s = 16777216 ∧ peerMaxHeaderBytes s = 1048576) ∧
    (∀ v : Nat, Settings.lookup s SettingMaxFieldSectionSize = some v → v > 0 →
      maxHeaderBytes s = v ∧ peerMaxHeaderBytes s = v) := by
  constructor
  · intro h
    rcases h with h | h <;>
      simp [maxHeaderBytes, peerMaxHeaderBytes, h, defaultMaxFieldSectionSize,
        httpDefaultMaxHeaderBytes]
  · intro v h hv
    simp [maxHeaderBytes, peerMaxHeaderBytes, h, hv]

/-- C4 witness: the amended default theorem applied to the empty settings
map. -/
theorem max_field_section_size_defaults_witness :
    maxHeaderBytes [] = 16777216 ∧ peerMaxHeaderBytes [] = 1048576 :=
  (max_field_section_size_defaults []).1 (Or.inl rfl)

/- ===================== Go strconv model ===================== -/

/-- Decimal digit value of a character, if it is a digit. -/
def digitVal (c : Char) : Option Nat :=
  if '0' ≤ c ∧ c ≤ '9' then some (c.toNat - '0'.toNat) else none

/-- Accumulate a base-10 digit string; any non-digit is an error. -/
def digitsToNatAux : List Char → Nat → Option Nat
  | [], acc => some acc
  | c :: cs, acc =>
    match digitVal c with
    | some d => digitsToNatAux cs (acc * 10 + d)
    | none => none

/-- Parse a nonempty list of base-10 digits; matches Go strconv ParseInt
digit handling at base 10 (underscores are rejected at explicit bases). -/
def digitsToNat : List Char → Option Nat
  | [] => none
  | cs => digitsToNatAux cs 0

/-- Go `strconv.ParseInt(s, 10, 64)` (external stdlib): optional single
leading sign, then one or more decimal digits, range-checked against signed
64-bit.  Returns `none` where Go returns a non-nil error. -/
def goParseInt64 (s : String) : Option Int :=
  match s.toList with
  | [] => none
  | c :: rest =>
    let neg := c = '-'
    let ds := if c = '-' ∨ c = '+' then rest else c :: rest
    match digitsToNat ds with
    | none => none
    | some m =>
      if neg then
        if m ≤ 2 ^ 63 then some (-(m : Int)) else none
      else
        if m ≤ 2 ^ 63 - 1 then some (m : Int) else none

/-- Go `strconv.Atoi` (external stdlib): `ParseInt(s, 10, 0)`, where the
platform int is 64-bit on the targets of this repository. -/
def goAtoi : String → Option Int := goParseInt64

/- ===================== C2: response :status scanning (client.doRequest) ===================== -/

/-- A decoded QPACK header field. -/
structure HeaderField where
  name : String
  value : String
deriving DecidableEq, Repr

/-- Modelled from the spec: the `:status` pseudo-header name used by
`client.doRequest`; the constant declaration is not under src/. -/
def pseudoHeaderStatus : String := ":status"

/-- The header-field loop of `client.doRequest` (part_000 lines 210-227)
restricted to its `:status` handling: `statusCode` starts at 0 for each
HEADERS frame, each `:status` field is parsed with `strconv.Atoi`
(a parse failure aborts with a MESSAGE_ERROR stream reset), and a later
`:status` field overwrites an earlier one.  Accumulation of non-pseudo
headers does not influence the status result and is elided. -/
def processHeaderFields : List HeaderField → Int → Option Int
  | [], statusCode => some statusCode
  | hf :: rest, statusCode =>
    if hf.name = pseudoHeaderStatus then
      match goAtoi hf.value with
      | none => none
      | some v => processHeaderFields rest v
    else
      processHeaderFields rest statusCode

/-- Outcome of the response-HEADERS read loop of `client.doRequest`. -/
inductive StatusReadResult where
  /-- A final (non-interim) status was accepted. -/
  | final (statusCode : Int)
  /-- A malformed `:status`: `str.CancelWrite(errorMessageError)` was issued
  and doRequest returned the error "invalid or missing :status header". -/
  | resetMessageError
  /-- `str.ReadHeaders()` failed before a final status arrived; its error is
  propagated. -/
  | noMoreFrames
deriving DecidableEq, Repr

/-- The HEADERS read loop of `client.doRequest` (part_000 lines 204-234):
read HEADERS frames until a status outside 100..199 is seen; the input list
holds the successive decoded HEADERS frames available on the stream. -/
def readResponseStatus : List (List HeaderField) → StatusReadResult
  | [] => .noMoreFrames
  | frame :: rest =>
    match processHeaderFields frame 0 with
    | none => .resetMessageError
    | some statusCode =>
      if statusCode < 100 ∨ 200 ≤ statusCode then .final statusCode
      else readResponseStatus rest

/-- Fields with names other than `:status` do not change the status scan. -/
theorem processHeaderFields_append_no_status (l m : List HeaderField)
    (sc : Int) (h : ∀ hf ∈ l, hf.name ≠ pseudoHeaderStatus) :
    processHeaderFields (l ++ m) sc = processHeaderFields m sc := by
  induction l with
  | nil => rfl
  | cons hf rest ih =>
    have hne : hf.name ≠ pseudoHeaderStatus := h hf (List.mem_cons_self hf rest)
    have hrest : ∀ x ∈ rest, x.name ≠ pseudoHeaderStatus := fun x hx =>
      h x (List.mem_cons_of_mem hf hx)
    simp only [List.cons_append, processHeaderFields, hne, if_neg, ite_false]
    exact ih hrest

/-- C2 counterexample: a response whose only HEADERS frame carries
`:status: 42` is accepted as the final response with status 42 (exactly the
behavior the client test suite expects of status 42); the claim mandates a
MESSAGE_ERROR reset for status values below 100. -/
theorem status_42_is_accepted :
    readResponseStatus [[⟨pseudoHeaderStatus, "42"⟩]] = .final 42 ∧
    StatusReadResult.final 42 ≠ StatusReadResult.resetMessageError := by
  refine ⟨?_, by decide⟩
  rfl

/-- C2 amended: in a HEADERS frame whose `:status` field (with no other
`:status` fields around it) has value `v`: a value that Go strconv.Atoi
cannot parse causes the MESSAGE_ERROR reset and an error return; a numeric
value n is accepted as the final status whenever n < 100 or n ≥ 200 —
including values below 100 or above 999 — and a numeric value in 100..199
is treated as interim and the loop continues with the next frame. -/
theorem status_scan_amended (pre post : List HeaderField) (v : String)
    (frames : List (List HeaderField))
    (hpre : ∀ hf ∈ pre, hf.name ≠ pseudoHeaderStatus)
    (hpost : ∀ hf ∈ post, hf.name ≠ pseudoHeaderStatus) :
    (goAtoi v = none →
      readResponseStatus ((pre ++ ⟨pseudoHeaderStatus, v⟩ :: post) :: frames)
        = .resetMessageError) ∧
    (∀ n : Int, goAtoi v = some n → (n < 100 ∨ 200 ≤ n) →
      readResponseStatus ((pre ++ ⟨pseudoHeaderStatus, v⟩ :: post) :: frames)
        = .final n) ∧
    (∀ n : Int, goAtoi v = some n → 100 ≤ n → n < 200 →
      readResponseStatus ((pre ++ ⟨pseudoHeaderStatus, v⟩ :: post) :: frames)
        = readResponseStatus frames) := by
  have hfields : ∀ sc : Int,
      processHeaderFields (pre ++ ⟨pseudoHeaderStatus, v⟩ :: post) sc
        = (match goAtoi v with
            | none => none
            | some n => processHeaderFields post n) := by
    intro sc
    rw [processHeaderFields_append_no_status pre _ sc hpre]
    simp only [processHeaderFields]
    rw [if_pos trivial]
  have hpost0 : ∀ n : Int, processHeaderFields post n = some n := by
    intro n
    have := processHeaderFields_append_no_status post [] n hpost
    simpa using this
  refine ⟨?_, ?_, ?_⟩
  · intro hnone
    simp only [readResponseStatus, hfields 0, hnone]
  · intro n hsome hrange
    simp only [readResponseStatus, hfields 0, hsome, hpost0 n]
    rw [if_pos hrange]
  · intro n hsome h100 h200
    simp only [readResponseStatus, hfields 0, hsome, hpost0 n]
    rw [if_neg]
    push_neg
    exact ⟨h100, h200⟩

/-- C2 witness: the amended scan theorem applied to the single frame
`:status: 42`, which parses to 42 < 100 and is accepted as final. -/
theorem status_scan_amended_witness :
    readResponseStatus [[⟨pseudoHeaderStatus, "42"⟩]] = .final 42 := by
  have h := (status_scan_amended [] [] "42" []
    (by intro hf h; cases h) (by intro hf h; cases h)).2.1 42 (by rfl)
    (Or.inl (by norm_num))
  simpa using h

/- ===================== C7: RoundTrip error classification ===================== -/

/-- The shape of the error returned by `client.doRequest`, as discriminated
by the type switch in `client.RoundTrip` (part_000 lines 170-178):
a `*FrameTypeError` (carrying want and got frame types), a
`*FrameLengthError` (carrying type, length and max), or any other error. -/
inductive RequestError where
  | frameTypeError (want got : Nat)
  | frameLengthError (type len max : Nat)
  | other
deriving DecidableEq, Repr

/-- The single recovery action taken by `client.RoundTrip` on a failed round
trip: close the whole QUIC session, or reset (CancelWrite) the request
stream, with the given HTTP/3 error code. -/
inductive RoundTripErrAction where
  | closeConn (code : Nat)
  | cancelWrite (code : Nat)
deriving DecidableEq, Repr

/-- The error type switch of `client.RoundTrip` (part_000 lines 167-180):
called once when `doRequest` returns a non-nil error; each arm performs
exactly one action. -/
def classifyRequestError : RequestError → RoundTripErrAction
  | .frameTypeError _ _ => .closeConn errorFrameUnexpected
  | .frameLengthError _ _ _ => .cancelWrite errorFrameError
  | .other => .cancelWrite errorGeneralProtocolError

/-- C7: a FrameTypeError closes the connection with FRAME_UNEXPECTED
(0x105), a FrameLengthError resets the request stream with FRAME_ERROR
(0x106), any other error resets it with GENERAL_PROTOCOL_ERROR (0x101), and
exactly one of these three actions is taken for every failed round trip. -/
theorem roundtrip_error_classification (e : RequestError) :
    (∀ want got, e = .frameTypeError want got →
      classifyRequestError e = .closeConn 0x105) ∧
    (∀ t len max, e = .frameLengthError t len max →
      classifyRequestError e = .cancelWrite 0x106) ∧
    (e = .other → classifyRequestError e = .cancelWrite 0x101) ∧
    (classifyRequestError e = .closeConn 0x105 ∨
     classifyRequestError e = .cancelWrite 0x106 ∨
     classifyRequestError e = .cancelWrite 0x101) := by
  cases e with
  | frameTypeError w g =>
    exact ⟨fun _ _ _ => rfl, fun _ _ _ h => RequestError.noConfusion h,
      fun h => RequestError.noConfusion h, Or.inl rfl⟩
  | frameLengthError t l m =>
    exact ⟨fun _ _ h => RequestError.noConfusion h, fun _ _ _ _ => rfl,
      fun h => RequestError.noConfusion h, Or.inr (Or.inl rfl)⟩
  | other =>
    exact ⟨fun _ _ h => RequestError.noConfusion h,
      fun _ _ _ h => RequestError.noConfusion h, fun _ => rfl,
      Or.inr (Or.inr rfl)⟩

/-- C7 witness: the classification theorem applied to a concrete
FrameTypeError (HEADERS expected, DATA seen). -/
theorem roundtrip_error_classification_witness :
    classifyRequestError (.frameTypeError FrameTypeHeaders FrameTypeData)
      = .closeConn 0x105 :=
  (roundtrip_error_classification
    (.frameTypeError FrameTypeHeaders FrameTypeData)).1
    FrameTypeHeaders FrameTypeData rfl

/- ===================== C8: response ContentLength ===================== -/

/-- The ContentLength computation of `client.doRequest` (part_000 lines
255-267).  `hasTransferEncoding` is the comma-ok presence of the
Transfer-Encoding header; `contentLength` is the comma-ok lookup of the
Content-Length header values (`none` embeds a missing key).  A Go
`http.Response` starts with `ContentLength` at its zero value 0, which is
what "left unset" denotes. -/
def computeContentLength (hasTransferEncoding : Bool) (statusCode : Int)
    (method : String) (contentLength : Option (List String)) : Int :=
  if hasTransferEncoding = false ∧ ¬(100 ≤ statusCode ∧ statusCode < 200) ∧
      statusCode ≠ 204 ∧
      ¬(method = "CONNECT" ∧ 200 ≤ statusCode ∧ statusCode < 300) then
    match contentLength with
    | some [s] =>
      match goParseInt64 s with
      | some v => v
      | none => -1
    | _ => -1
  else 0

/-- C8: ContentLength is left at 0 when Transfer-Encoding is present, the
status is informational (100-199) or 204, or the request was CONNECT with a
2xx status; otherwise it is the signed 64-bit parse of the single
Content-Length value when exactly one is present and parses, and -1
otherwise (absent, duplicated or unparsable). -/
theorem content_length_rules (hasTransferEncoding : Bool) (statusCode : Int)
    (method : String) (contentLength : Option (List String)) :
    ((hasTransferEncoding = true ∨ (100 ≤ statusCode ∧ statusCode < 200) ∨
      statusCode = 204 ∨
      (method = "CONNECT" ∧ 200 ≤ statusCode ∧ statusCode < 300)) →
      computeContentLength hasTransferEncoding statusCode method contentLength
        = 0) ∧
    ((hasTransferEncoding = false ∧ ¬(100 ≤ statusCode ∧ statusCode < 200) ∧
      statusCode ≠ 204 ∧
      ¬(method = "CONNECT" ∧ 200 ≤ statusCode ∧ statusCode < 300)) →
      ((∀ s v, contentLength = some [s] → goParseInt64 s = some v →
        computeContentLength hasTransferEncoding statusCode method
          contentLength = v) ∧
       (∀ s, contentLength = some [s] → goParseInt64 s = none →
        computeContentLength hasTransferEncoding statusCode method
          contentLength = -1) ∧
       (contentLength = none →
        computeContentLength hasTransferEncoding statusCode method
          contentLength = -1) ∧
       (∀ l, contentLength = some l → l.length ≠ 1 →
        computeContentLength hasTransferEncoding statusCode method
          contentLength = -1))) := by
  constructor
  · intro h
    unfold computeContentLength
    rw [if_neg]
    rcases h with h | h | h | h
    · intro hc; rw [h] at hc; exact absurd hc.1 (by simp)
    · intro hc; exact hc.2.1 h
    · intro hc; exact hc.2.2.1 h
    · intro hc; exact hc.2.2.2 h
  · intro h
    refine ⟨?_, ?_, ?_, ?_⟩
    · intro s v hs hv
      unfold computeContentLength
      rw [if_pos h, hs]
      simp [hv]
    · intro s hs hv
      unfold computeContentLength
      rw [if_pos h, hs]
      simp [hv]
    · intro hs
      unfold computeContentLength
      rw [if_pos h, hs]
    · intro l hl hlen
      unfold computeContentLength
      rw [if_pos h, hl]
      match l, hlen with
      | [], _ => rfl
      | _ :: _ :: _, _ => rfl
      | [x], hlen => exact absurd rfl hlen

/-- C8 witness: the ContentLength rules applied to a plain 200 GET response
with a single Content-Length header of value 42. -/
theorem content_length_rules_witness :
    computeContentLength false 200 "GET" (some ["42"]) = 42 :=
  ((content_length_rules false 200 "GET" (some ["42"])).2
    (by decide)).1 "42" 42 rfl rfl

/- ===================== Stream handling actions ===================== -/

/-- An observable action of the connection engine on an incoming stream:
a one-direction reset, delivery into a per-session channel, delivery into
the request-stream channel, a connection close, or spawning the
control-stream reader. -/
inductive StreamAction where
  | cancelRead (code : Nat)
  | cancelWrite (code : Nat)
  | deliverStream (sessionID : Nat)
  | deliverRequest
  | closeConn (code : Nat)
  | spawnControlHandler
deriving DecidableEq, Repr

/- ===================== C1: incoming bidirectional streams ===================== -/

/-- The frame heads read by `connection.handleIncomingStream` via
`fr.Next()`: HEADERS, DATA, WEBTRANSPORT_STREAM (whose length field `fr.N`
is the session id), or a grease frame (any other type), which is skipped.
An exhausted list embeds a failing `fr.Next()`. -/
inductive BidiFrame where
  | headers
  | data
  | webTransport (sessionID : Nat)
  | grease
deriving DecidableEq, Repr

/-- `connection.handleIncomingStream` from part_001 lines 1052-1107.
`wtEnabled` is `conn.Settings().WebTransportEnabled()`; `chanFull` is
whether the select on `conn.incomingStreamsChan(sessionID)` takes its
default branch.  In the WEBTRANSPORT_STREAM arm the source resets both
directions with ID_ERROR when the session id is not client-initiated
bidirectional but does NOT return there, so execution falls through to the
delivery select; the embedding reproduces that fall-through. -/
def handleIncomingStream (wtEnabled chanFull : Bool) :
    List BidiFrame → List StreamAction
  | [] => [.cancelWrite errorRequestIncomplete]
  | .headers :: _ => [.deliverRequest]
  | .data :: _ => [.closeConn errorFrameUnexpected]
  | .webTransport sessionID :: _ =>
    if wtEnabled = false then
      [.cancelRead errorSettingsError, .cancelWrite errorSettingsError]
    else
      (if isClientBidi sessionID = false then
        [.cancelRead errorIDError, .cancelWrite errorIDError]
      else []) ++
      (if chanFull then
        [.cancelRead errorWebTransportBufferedStreamRejected,
         .cancelWrite errorWebTransportBufferedStreamRejected]
      else [.deliverStream sessionID])
  | .grease :: rest => handleIncomingStream wtEnabled chanFull rest

/-- `connection.handleIncomingUniStream`, WEBTRANSPORT_UNI arm, from
part_001 lines 1161-1182: here the invalid-session-id reset IS followed by
a return, so no delivery happens. -/
def handleIncomingUniStreamWT (wtEnabled : Bool)
    (sessionID : Option Nat) (chanFull : Bool) : List StreamAction :=
  if wtEnabled = false then [.cancelRead errorSettingsError]
  else
    match sessionID with
    | none => [.cancelRead errorGeneralProtocolError]
    | some sid =>
      if isClientBidi sid = false then [.cancelRead errorIDError]
      else if chanFull then
        [.cancelRead errorWebTransportBufferedStreamRejected]
      else [.deliverStream sid]

/-- C1 failing input: a bidirectional stream opening with a
WEBTRANSPORT_STREAM frame carrying session id 1 (low two bits 01, not a
client-initiated bidirectional id), with WebTransport enabled and room in
the channel.  The source resets both directions with ID_ERROR and then
still delivers the stream into the session-1 incoming-stream channel,
because the invalid-id branch lacks a return; the unidirectional path with
the same invalid id delivers nothing.  This contradicts the claim (and the
intent stated in the comment directly above the source check). -/
theorem invalid_session_id_bidi_stream_still_delivered :
    isClientBidi 1 = false ∧
    handleIncomingStream true false [.webTransport 1]
      = [.cancelRead errorIDError, .cancelWrite errorIDError,
         .deliverStream 1] ∧
    StreamAction.deliverStream 1 ∈
      handleIncomingStream true false [.webTransport 1] ∧
    handleIncomingUniStreamWT true (some 1) false
      = [.cancelRead errorIDError] := by
  refine ⟨rfl, rfl, ?_, rfl⟩
  decide

/- ===================== C5: peer unidirectional stream dispatch ===================== -/

/-- The perspective of the QUIC session owner. -/
inductive Perspective where
  | client
  | server
deriving DecidableEq, Repr

/-- One accepted peer unidirectional stream as consumed by
`connection.handleIncomingUniStream`: the leading varint stream-type tag
(`none` embeds a varint read error), the second varint session id for the
WEBTRANSPORT_UNI path (`none` embeds a read error), and whether the
per-session channel select takes its default branch. -/
structure UniStreamInput where
  tag : Option Nat
  sessionID : Option Nat
  chanFull : Bool
deriving DecidableEq, Repr

/-- The 4-slot peer-stream table update of
`connection.handleIncomingUniStream` (part_001 lines 1133-1137): a stream
whose tag is below 4 is stored in its slot (overwriting any previous one);
the table is embedded as the list of tags already recorded. -/
def uniStreamState (peerStreams : List Nat) (inp : UniStreamInput) :
    List Nat :=
  match inp.tag with
  | none => peerStreams
  | some t => if t < 4 then t :: peerStreams else peerStreams

/-- The actions of `connection.handleIncomingUniStream` (part_001 lines
1123-1187): read the tag (failure resets with GENERAL_PROTOCOL_ERROR); for
tags below 4, a populated slot closes the connection with
STREAM_CREATION_ERROR; then dispatch on the tag: CONTROL spawns the
control-stream reader, PUSH closes the connection (STREAM_CREATION_ERROR on
the server, ID_ERROR on the client), QPACK streams are ignored,
WEBTRANSPORT_UNI validates and routes the session id, and any other tag
resets the stream with STREAM_CREATION_ERROR. -/
def uniStreamActions (p : Perspective) (wtEnabled : Bool)
    (peerStreams : List Nat) (inp : UniStreamInput) : List StreamAction :=
  match inp.tag with
  | none => [.cancelRead errorGeneralProtocolError]
  | some t =>
    if t < 4 ∧ t ∈ peerStreams then [.closeConn errorStreamCreationError]
    else if t = StreamTypeControl then [.spawnControlHandler]
    else if t = StreamTypePush then
      [.closeConn (if p = .server then errorStreamCreationError
        else errorIDError)]
    else if t = StreamTypeQPACKEncoder ∨ t = StreamTypeQPACKDecoder then []
    else if t = StreamTypeWebTransportStream then
      handleIncomingUniStreamWT wtEnabled inp.sessionID inp.chanFull
    else [.cancelRead errorStreamCreationError]

/-- `connection.handleIncomingUniStream` as a state transformer: the
updated peer-stream table together with the performed actions. -/
def handleIncomingUniStream (p : Perspective) (wtEnabled : Bool)
    (peerStreams : List Nat) (inp : UniStreamInput) :
    List Nat × List StreamAction :=
  (uniStreamState peerStreams inp, uniStreamActions p wtEnabled peerStreams inp)

/-- Whether an action list contains a connection close. -/
def containsClose (acts : List StreamAction) : Bool :=
  acts.any fun a =>
    match a with
    | .closeConn _ => true
    | _ => false

/-- The accept loop `connection.handleIncomingUniStreams` run over a finite
sequence of accepted streams: streams are handled in order; a connection
close aborts the session, after which no further streams are accepted. -/
def runUniStreams (p : Perspective) (wtEnabled : Bool) :
    List Nat → List UniStreamInput → List Nat × List StreamAction
  | st, [] => (st, [])
  | st, i :: rest =>
    let step := handleIncomingUniStream p wtEnabled st i
    if containsClose step.2 then step
    else
      let res := runUniStreams p wtEnabled step.1 rest
      (res.1, step.2 ++ res.2)

/-- Membership in the peer-stream table after one stream is handled. -/
theorem uniStreamState_mem (peerStreams : List Nat) (i : UniStreamInput)
    (t : Nat) :
    t ∈ uniStreamState peerStreams i ↔
      t ∈ peerStreams ∨ (i.tag = some t ∧ t < 4) := by
  cases htag : i.tag with
  | none => simp [uniStreamState, htag]
  | some u =>
    by_cases hu : u < 4
    · simp only [uniStreamState, htag, if_pos hu, List.mem_cons,
        Option.some.injEq]
      constructor
      · rintro (rfl | h)
        · exact Or.inr ⟨rfl, hu⟩
        · exact Or.inl h
      · rintro (h | ⟨rfl, _⟩)
        · exact Or.inr h
        · exact Or.inl rfl
    · simp only [uniStreamState, htag, if_neg hu, Option.some.injEq]
      constructor
      · exact Or.inl
      · rintro (h | ⟨rfl, h2⟩)
        · exact h
        · exact absurd h2 hu

/-- Unfolding equation for one iteration of the accept loop. -/
theorem runUniStreams_cons (p : Perspective) (wtEnabled : Bool)
    (st : List Nat) (i : UniStreamInput) (rest : List UniStreamInput) :
    runUniStreams p wtEnabled st (i :: rest) =
      if containsClose (uniStreamActions p wtEnabled st i) then
        (uniStreamState st i, uniStreamActions p wtEnabled st i)
      else
        ((runUniStreams p wtEnabled (uniStreamState st i) rest).1,
         uniStreamActions p wtEnabled st i ++
           (runUniStreams p wtEnabled (uniStreamState st i) rest).2) :=
  rfl

/-- After a close-free run of the accept loop, a tag below 4 is recorded in
the peer-stream table exactly when some handled stream carried it. -/
theorem runUniStreams_mem (p : Perspective) (wtEnabled : Bool)
    (inputs : List UniStreamInput) :
    ∀ st : List Nat,
      containsClose (runUniStreams p wtEnabled st inputs).2 = false →
      ∀ t : Nat, t ∈ (runUniStreams p wtEnabled st inputs).1 ↔
        t ∈ st ∨ ∃ i ∈ inputs, i.tag = some t ∧ t < 4 := by
  induction inputs with
  | nil =>
    intro st _ t
    simp [runUniStreams]
  | cons i rest ih =>
    intro st hnc t
    rw [runUniStreams_cons] at hnc ⊢
    by_cases hc : containsClose (uniStreamActions p wtEnabled st i) = true
    · rw [if_pos hc] at hnc
      exact absurd hnc (by simp [hc])
    · rw [if_neg hc] at hnc ⊢
      simp only [containsClose, List.any_append, Bool.or_eq_false_iff]
        at hnc
      have hrest := ih (uniStreamState st i) hnc.2 t
      rw [hrest, uniStreamState_mem st i t]
      simp only [List.exists_mem_cons_iff]
      tauto

/-- C5: once a close-free prefix of the accept loop has recorded a CONTROL,
QPACK_ENCODER or QPACK_DECODER stream, a further peer stream with the same
tag always closes the connection with STREAM_CREATION_ERROR (0x103), and a
first stream of each of those types never produces a connection close. -/
theorem duplicate_critical_stream_closes_connection
    (p : Perspective) (wtEnabled : Bool) (pre : List UniStreamInput)
    (inp : UniStreamInput) (t : Nat)
    (ht : t = StreamTypeControl ∨ t = StreamTypeQPACKEncoder ∨
      t = StreamTypeQPACKDecoder)
    (htag : inp.tag = some t)
    (hnc : containsClose (runUniStreams p wtEnabled [] pre).2 = false) :
    ((∃ i ∈ pre, i.tag = some t) →
      uniStreamActions p wtEnabled (runUniStreams p wtEnabled [] pre).1 inp
        = [.closeConn errorStreamCreationError]) ∧
    ((∀ i ∈ pre, i.tag ≠ some t) →
      containsClose
        (uniStreamActions p wtEnabled (runUniStreams p wtEnabled [] pre).1
          inp) = false) := by
  have ht4 : t < 4 := by
    rcases ht with rfl | rfl | rfl <;> decide
  have hmem := runUniStreams_mem p wtEnabled pre [] hnc
  constructor
  · rintro ⟨i, hi, hit⟩
    have hin : t ∈ (runUniStreams p wtEnabled [] pre).1 := by
      rw [hmem t]
      exact Or.inr ⟨i, hi, hit, ht4⟩
    simp only [uniStreamActions, htag]
    rw [if_pos ⟨ht4, hin⟩]
  · intro hall
    have hnotmem : t ∉ (runUniStreams p wtEnabled [] pre).1 := by
      rw [hmem t]
      rintro (h | ⟨i, hi, hit, _⟩)
      · exact absurd h (List.not_mem_nil t)
      · exact hall i hi hit
    simp only [uniStreamActions, htag]
    rw [if_neg (fun hcontra => hnotmem hcontra.2)]
    rcases ht with rfl | rfl | rfl
    · rw [if_pos rfl]
      rfl
    · rw [if_neg (by decide), if_neg (by decide), if_pos (Or.inl rfl)]
      rfl
    · rw [if_neg (by decide), if_neg (by decide), if_pos (Or.inr rfl)]
      rfl

/-- C5 witness: a first CONTROL stream is handled without a close, and a
second CONTROL stream on the same connection is the duplicate that closes
it with STREAM_CREATION_ERROR. -/
theorem duplicate_critical_stream_closes_connection_witness :
    uniStreamActions .client false
      (runUniStreams .client false [] [⟨some 0, none, false⟩]).1
      ⟨some 0, none, false⟩ = [.closeConn errorStreamCreationError] :=
  (duplicate_critical_stream_closes_connection .client false
    [⟨some 0, none, false⟩] ⟨some 0, none, false⟩ 0
    (Or.inl rfl) rfl (by decide)).1
    ⟨⟨some 0, none, false⟩, by simp, rfl⟩

/- ===================== C6 / C3: the control-stream reader ===================== -/

/-- The state in which the peer-settings latch (`peerSettingsDone`) is
released: `ready` holds the stored `conn.peerSettings`; `failed` means
`conn.peerSettingsErr` was non-nil at release time. -/
inductive LatchState where
  | ready (s : Settings)
  | failed
deriving DecidableEq

/-- The observable outcome of `connection.handleControlStream`: the latch
state at the moment `close(conn.peerSettingsDone)` runs, how many times the
latch is released, and the connection close (if any) with its code. -/
structure ControlStreamOutcome where
  latch : LatchState
  latchReleases : Nat
  close : Option Nat
deriving DecidableEq

/-- `connection.handleControlStream` from part_001 lines 1190-1214.
`settingsResult` is the outcome of `readSettings(fr)`, which is not under
src/ and is modelled from the spec: it returns an error exactly when the
first frame on the control stream is not SETTINGS or reading the SETTINGS
frame fails.  `localSettings` mirrors `conn.settings`, which is in scope
but is NOT consulted by the source: the datagram-mismatch check reads only
`conn.peerSettings.DatagramsEnabled()` and
`conn.session.ConnectionState().SupportsDatagrams`.  The source closes the
latch exactly once, before either close path. -/
def handleControlStream (localSettings : Settings)
    (settingsResult : Except Unit Settings) (supportsDatagrams : Bool) :
    ControlStreamOutcome :=
  match settingsResult with
  | .error _ =>
    { latch := .failed, latchReleases := 1,
      close := some errorMissingSettings }
  | .ok peerSettings =>
    if Settings.DatagramsEnabled peerSettings ∧ supportsDatagrams = false
    then
      { latch := .ready peerSettings, latchReleases := 1,
        close := some errorSettingsError }
    else
      { latch := .ready peerSettings, latchReleases := 1, close := none }

/-- C6: when reading the first control-stream frame as SETTINGS fails, the
latch is released in the Failed state and the connection is closed with
MISSING_SETTINGS (0x10a); on success the parsed settings are stored and the
latch is released in the Ready state with no MISSING_SETTINGS close; the
latch is released exactly once either way. -/
theorem control_stream_settings_latch (localSettings : Settings)
    (settingsResult : Except Unit Settings) (supportsDatagrams : Bool) :
    (handleControlStream localSettings settingsResult
      supportsDatagrams).latchReleases = 1 ∧
    (∀ e : Unit, settingsResult = .error e →
      (handleControlStream localSettings settingsResult
        supportsDatagrams).latch = .failed ∧
      (handleControlStream localSettings settingsResult
        supportsDatagrams).close = some errorMissingSettings) ∧
    (∀ s : Settings, settingsResult = .ok s →
      (handleControlStream localSettings settingsResult
        supportsDatagrams).latch = .ready s ∧
      (handleControlStream localSettings settingsResult
        supportsDatagrams).close ≠ some errorMissingSettings) := by
  refine ⟨?_, ?_, ?_⟩
  · cases settingsResult with
    | error e => rfl
    | ok s =>
      by_cases h : Settings.DatagramsEnabled s ∧ supportsDatagrams = false
      · simp [handleControlStream, if_pos h]
      · simp [handleControlStream, if_neg h]
  · rintro e rfl
    exact ⟨rfl, rfl⟩
  · rintro s rfl
    by_cases h : Settings.DatagramsEnabled s ∧ supportsDatagrams = false
    · refine ⟨by simp [handleControlStream, if_pos h], ?_⟩
      simp only [handleControlStream, if_pos h]
      intro hcontra
      have : errorSettingsError = errorMissingSettings :=
        Option.some.inj hcontra
      exact absurd this (by decide)
    · refine ⟨by simp [handleControlStream, if_neg h], ?_⟩
      simp [handleControlStream, if_neg h]

/-- C6 witness: the latch theorem applied to a successful SETTINGS read of
the empty settings map with datagram support present. -/
theorem control_stream_settings_latch_witness :
    (handleControlStream [] (.ok []) true).latch = .ready [] ∧
    (handleControlStream [] (.ok []) true).close
      ≠ some errorMissingSettings :=
  (control_stream_settings_latch [] (.ok []) true).2.2 [] rfl

/-- C3 counterexample: the peer advertises H3_DATAGRAM, the QUIC session
does not support datagrams, and the LOCAL settings do not enable
H3_DATAGRAM; the source still closes the connection with SETTINGS_ERROR
(reason "missing QUIC Datagram support"), while the claim says no such
close occurs when the local side did not enable H3_DATAGRAM. -/
theorem datagram_mismatch_close_ignores_local_settings :
    Settings.DatagramsEnabled [] = false ∧
    (handleControlStream [] (.ok [(SettingDatagram, 1)]) false).close
      = some errorSettingsError := by
  constructor
  · rfl
  · rfl

/-- C3 amended: the control-stream reader closes the connection with
SETTINGS_ERROR exactly when the PEER settings advertise H3_DATAGRAM and the
underlying QUIC session does not support datagrams, regardless of the local
settings. -/
theorem datagram_mismatch_close_iff (localSettings : Settings)
    (settingsResult : Except Unit Settings) (supportsDatagrams : Bool) :
    (handleControlStream localSettings settingsResult
      supportsDatagrams).close = some errorSettingsError ↔
      ∃ s : Settings, settingsResult = .ok s ∧
        Settings.DatagramsEnabled s = true ∧ supportsDatagrams = false := by
  cases settingsResult with
  | error e =>
    simp only [handleControlStream]
    constructor
    · intro h
      have : errorMissingSettings = errorSettingsError := Option.some.inj h
      exact absurd this (by decide)
    · rintro ⟨s, hs, _⟩
      exact Except.noConfusion hs
  | ok s =>
    by_cases h : Settings.DatagramsEnabled s ∧ supportsDatagrams = false
    · have hc : (handleControlStream localSettings (.ok s)
          supportsDatagrams).close = some errorSettingsError := by
        simp only [handleControlStream, if_pos h]
      rw [hc]
      exact ⟨fun _ => ⟨s, rfl, h.1, h.2⟩, fun _ => rfl⟩
    · simp only [handleControlStream, if_neg h]
      constructor
      · intro hcontra
        exact absurd hcontra (by simp)
      · rintro ⟨s1, hs1, hdg, hsup⟩
        have : s1 = s := (Except.ok.inj hs1).symm
        subst this
        exact absurd ⟨hdg, hsup⟩ h

/-- C3 amended witness: the characterization applied to a peer advertising
H3_DATAGRAM over a session without datagram support. -/
theorem datagram_mismatch_close_iff_witness :
    (handleControlStream [] (.ok [(SettingDatagram, 1)]) false).close
      = some errorSettingsError :=
  (datagram_mismatch_close_iff [] (.ok [(SettingDatagram, 1)]) false).2
    ⟨[(SettingDatagram, 1)], rfl, rfl, rfl⟩

/- ===================== C10: body (body.go) ===================== -/

/-- The mutable fields of `body` (body.go) relevant to the request-done
channel: whether `reqDone` is non-nil (only set for responses) and the
`reqDoneClosed` guard. -/
structure BodyState where
  reqDonePresent : Bool
  reqDoneClosed : Bool
deriving DecidableEq, Repr

/-- An observable event of a `body` operation: the channel close
`close(reqDone)`, a `CancelRead` on the underlying request stream, or the
trailer callback invocation. -/
inductive BodyEvent where
  | chanClose
  | cancelRead (code : Nat)
  | onTrailers
deriving DecidableEq, Repr

/-- `body.requestDone` (body.go lines 57-63): returns immediately when the
channel was already closed or is nil; otherwise closes the channel and sets
the guard. -/
def requestDone (st : BodyState) : BodyState × List BodyEvent :=
  if st.reqDoneClosed || !st.reqDonePresent then (st, [])
  else ({ st with reqDoneClosed := true }, [.chanClose])

/-- The result of the underlying `r.str.DataReader().Read(p)` call inside
`body.Read`: a successful read, end of the data (io.EOF), or another
error. -/
inductive ReadOutcome where
  | ok
  | eof
  | readErr
deriving DecidableEq, Repr

/-- `body.Read` (body.go lines 45-55): on any non-nil error, trailers are
read first when the error is io.EOF and an `onTrailers` callback is set,
and then `requestDone` runs. -/
def bodyRead (st : BodyState) (onTrailersSet : Bool)
    (outcome : ReadOutcome) : BodyState × List BodyEvent :=
  match outcome with
  | .ok => (st, [])
  | .eof =>
    let pre := if onTrailersSet then [BodyEvent.onTrailers] else []
    ((requestDone st).1, pre ++ (requestDone st).2)
  | .readErr => requestDone st

/-- `body.Close` (body.go lines 65-70): runs `requestDone`, then issues
`CancelRead(errorRequestCanceled)` on the request stream, and returns nil
(embedded as `none`). -/
def bodyClose (st : BodyState) :
    BodyState × List BodyEvent × Option Unit :=
  ((requestDone st).1,
   (requestDone st).2 ++ [.cancelRead errorRequestCanceled], none)

/-- An operation the user of a `body` may perform: a `Read` (with the
underlying read outcome) or a `Close`. -/
inductive BodyOp where
  | read (onTrailersSet : Bool) (outcome : ReadOutcome)
  | close
deriving DecidableEq, Repr

/-- One `body` operation as a state transformer over the guard state,
dropping the (always-nil) Close return value. -/
def bodyStep (st : BodyState) : BodyOp → BodyState × List BodyEvent
  | .read tr oc => bodyRead st tr oc
  | .close => ((bodyClose st).1, (bodyClose st).2.1)

/-- A sequence of `body` operations run against a state, collecting all
events. -/
def runBody (st : BodyState) : List BodyOp → BodyState × List BodyEvent
  | [] => (st, [])
  | op :: rest =>
    let step := bodyStep st op
    let res := runBody step.1 rest
    (res.1, step.2 ++ res.2)

/-- Number of channel-close events in an event list. -/
def countChanClose (evs : List BodyEvent) : Nat :=
  evs.countP fun e => e = BodyEvent.chanClose

/-- The potential of a body state: 1 while the guard is unset, 0 after. -/
def bodyPotential (st : BodyState) : Nat :=
  if st.reqDoneClosed then 0 else 1

/-- `requestDone` closes the channel at most once: its events plus the
remaining potential are bounded by the prior potential. -/
theorem requestDone_potential (st : BodyState) :
    countChanClose (requestDone st).2 + bodyPotential (requestDone st).1
      ≤ bodyPotential st := by
  unfold requestDone bodyPotential countChanClose
  by_cases h : st.reqDoneClosed
  · simp [h]
  · by_cases hp : st.reqDonePresent
    · simp [h, hp]
    · simp [h, hp]

/-- One operation closes the channel at most once, consuming potential. -/
theorem bodyStep_potential (st : BodyState) (op : BodyOp) :
    countChanClose (bodyStep st op).2 + bodyPotential (bodyStep st op).1
      ≤ bodyPotential st := by
  cases op with
  | read tr oc =>
    cases oc with
    | ok => simp [bodyStep, bodyRead, countChanClose]
    | eof =>
      have h1 := requestDone_potential st
      simp only [bodyStep, bodyRead, countChanClose, List.countP_append]
        at h1 ⊢
      have hpre : List.countP
          (fun e => decide (e = BodyEvent.chanClose))
          (if tr then [BodyEvent.onTrailers] else []) = 0 := by
        by_cases htr : tr <;> simp [htr]
      omega
    | readErr =>
      have h1 := requestDone_potential st
      simpa [bodyStep, bodyRead, countChanClose] using h1
  | close =>
    have h1 := requestDone_potential st
    have hsing : List.countP (fun e => decide (e = BodyEvent.chanClose))
        [BodyEvent.cancelRead errorRequestCanceled] = 0 := by decide
    simp only [bodyStep, bodyClose, countChanClose, List.countP_append]
      at h1 ⊢
    omega

/-- Any run of body operations closes the channel at most `bodyPotential`
times. -/
theorem runBody_chanClose_le (ops : List BodyOp) :
    ∀ st : BodyState,
      countChanClose (runBody st ops).2 ≤ bodyPotential st := by
  induction ops with
  | nil =>
    intro st
    simp [runBody, countChanClose]
  | cons op rest ih =>
    intro st
    have hstep := bodyStep_potential st op
    have hrec := ih (bodyStep st op).1
    simp only [runBody, countChanClose, List.countP_append]
      at hstep hrec ⊢
    omega

/-- C10: starting from a fresh body (guard unset), any sequence of Read and
Close operations closes the request-done channel at most once; and Close
always returns nil and always issues CancelRead with REQUEST_CANCELED
(0x10c), no matter the state (so also when called repeatedly). -/
theorem body_requestDone_once_and_close
    (present : Bool) (ops : List BodyOp) (st : BodyState) :
    countChanClose (runBody ⟨present, false⟩ ops).2 ≤ 1 ∧
    (bodyClose st).2.2 = none ∧
    BodyEvent.cancelRead 0x10c ∈ (bodyClose st).2.1 := by
  refine ⟨?_, rfl, ?_⟩
  · have h := runBody_chanClose_le ops ⟨present, false⟩
    simpa [bodyPotential] using h
  · unfold bodyClose
    exact List.mem_append_right _ (by simp [errorRequestCanceled])
